import Mathlib

/-!
Verification of the safe-mutation and command-execution substrate of an
MCP server managing an Ansible directory tree (`server.py`).

The Python source is shallowly embedded: strings are Lean `String`
(a wrapper around `List Char`), and each Python helper or tool body is
translated into a pure, executable Lean function.  The filesystem is
modelled as an association list from absolute path to file content;
`os.makedirs` is a no-op in this model and directories are not modelled
as entries.  Wall-clock timestamps (`datetime.now().strftime`) and the
outcome of external subprocesses are passed in as explicit parameters.
-/

namespace AnsibleNetworkMCP

/-! ## Python string primitives on `List Char` -/

/-- Python `str.isspace` characters relevant to `str.strip()` (ASCII subset). -/
def pyIsSpace (c : Char) : Bool :=
  c == ' ' || c == '\t' || c == '\n' || c == '\r' || c == '\x0b' || c == '\x0c'

/-- Drop characters satisfying `p` from both ends of a character list. -/
def stripWhileL (p : Char → Bool) (l : List Char) : List Char :=
  ((l.dropWhile p).reverse.dropWhile p).reverse

/-- Python `value.strip()` on the underlying character list. -/
def pyStripL (l : List Char) : List Char := stripWhileL pyIsSpace l

/-- Python `value.strip()`. -/
def pyStripS (s : String) : String := ⟨pyStripL s.data⟩

/-- Python `value.strip(chars)`: drop any of `cs` from both ends. -/
def stripCharsL (cs : List Char) (l : List Char) : List Char :=
  stripWhileL (fun c => cs.contains c) l

/-- Python `str.lower` (ASCII). -/
def lowerS (s : String) : String := ⟨s.data.map Char.toLower⟩

/-- Python `prefix in s` restricted to a prefix test: `s.startswith(p)`. -/
def pyStartswith (p s : String) : Bool := List.isPrefixOf p.data s.data

/-- Python substring containment `pat in s` on character lists. -/
def containsSubL (pat : List Char) : List Char → Bool
  | [] => pat.isEmpty
  | c :: cs => List.isPrefixOf pat (c :: cs) || containsSubL pat cs

/-- Python substring containment `pat in s`. -/
def containsSubS (pat s : String) : Bool := containsSubL pat.data s.data

/-- Split a character list on a separator character; Python `s.split(sep)`
with a single-character separator (always returns at least one piece). -/
def splitOnCharL (sep : Char) : List Char → List (List Char)
  | [] => [[]]
  | c :: cs =>
    if c == sep then [] :: splitOnCharL sep cs
    else
      match splitOnCharL sep cs with
      | [] => [[c]]
      | h :: t => (c :: h) :: t

/-- Python `s.split("\n")`. -/
def splitLinesS (s : String) : List String := (splitOnCharL '\n' s.data).map (⟨·⟩)

/-- Interleave a separator list between pieces; Python `sep.join(pieces)`. -/
def intercalateL (sep : List Char) : List (List Char) → List Char
  | [] => []
  | [x] => x
  | x :: xs => x ++ sep ++ intercalateL sep xs

/-- Python `"\n".join(lines)`. -/
def joinNlS (ls : List String) : String := ⟨intercalateL ['\n'] (ls.map String.data)⟩

/-- Python `sep.join(pieces)`. -/
def joinWithS (sep : String) (ls : List String) : String :=
  ⟨intercalateL sep.data (ls.map String.data)⟩

/-- Python `"".join(lines)` / `f.writelines(lines)` content concatenation. -/
def concatS (ls : List String) : String := ⟨(ls.map String.data).flatten⟩

/-- Helper for `pyReadlinesS`: accumulate the current (reversed) line. -/
def readlinesAux (cur : List Char) : List Char → List (List Char)
  | [] => if cur.isEmpty then [] else [cur.reverse]
  | c :: cs =>
    if c == '\n' then (cur.reverse ++ ['\n']) :: readlinesAux [] cs
    else readlinesAux (c :: cur) cs

/-- Python `f.readlines()`: lines keep their trailing newline; empty file
gives no lines. -/
def pyReadlinesS (s : String) : List String := (readlinesAux [] s.data).map (⟨·⟩)

/-- Python `value.lstrip('/')`. -/
def lstripSlash (s : String) : String := ⟨s.data.dropWhile (· == '/')⟩

/-- Python `s.endswith((".yml", ".yaml"))`. -/
def endsYamlExt (s : String) : Bool :=
  List.isSuffixOf ".yml".data s.data || List.isSuffixOf ".yaml".data s.data

/-! ## `os.path` primitives (POSIX) -/

/-- POSIX `os.path.join(a, b)` for two components. -/
def pyJoin (a b : String) : String :=
  if List.isPrefixOf ['/'] b.data then b
  else if a.data.isEmpty || a.data.getLast? == some '/' then ⟨a.data ++ b.data⟩
  else ⟨a.data ++ '/' :: b.data⟩

/-- One step of `posixpath.normpath`'s component loop. -/
def normpathStep (initialSlashes : Nat) (acc : List (List Char)) (comp : List Char) :
    List (List Char) :=
  if comp = [] ∨ comp = ['.'] then acc
  else if comp ≠ ['.', '.'] ∨ (initialSlashes = 0 ∧ acc = []) ∨
      acc.getLast? = some ['.', '.'] then acc ++ [comp]
  else if acc ≠ [] then acc.dropLast
  else acc

/-- POSIX `os.path.normpath`. -/
def pyNormpath (s : String) : String :=
  if s.data.isEmpty then "."
  else
    let initialSlashes : Nat :=
      if List.isPrefixOf ['/', '/'] s.data ∧ ¬ List.isPrefixOf ['/', '/', '/'] s.data then 2
      else if List.isPrefixOf ['/'] s.data then 1 else 0
    let comps := splitOnCharL '/' s.data
    let newComps := comps.foldl (normpathStep initialSlashes) []
    let path := List.replicate initialSlashes '/' ++ intercalateL ['/'] newComps
    if path.isEmpty then "." else ⟨path⟩

/-- POSIX `os.path.basename`. -/
def pyBasename (s : String) : String := ⟨(splitOnCharL '/' s.data).getLastD []⟩

/-! ## Sanitizers (`server.py` lines 45-69) -/

/-- The shell metacharacters removed by `sanitize_input`
(`; & | $ ` + backtick + `( ) { } < > \`); braces and the backtick are
constructed numerically. -/
def dangerousChars : List Char :=
  [';', '&', '|', '$', Char.ofNat 96, '(', ')', Char.ofNat 123, Char.ofNat 125, '<', '>', '\\']

/-- Python `value.replace(c, "")` for a single character `c`. -/
def removeCharL (c : Char) (l : List Char) : List Char := l.filter (fun x => x != c)

/-- `sanitize_input` (lines 45-52): strip each dangerous character, then
surrounding whitespace; empty input yields `""`. -/
def sanitize_input (s : String) : String :=
  if s.data.isEmpty then ""
  else pyStripS ⟨dangerousChars.foldl (fun acc c => removeCharL c acc) s.data⟩

/-- Characters kept verbatim by `sanitize_filename`'s regex
`[^a-zA-Z0-9_\-\.]`. -/
def safeFileChar (c : Char) : Bool := c.isAlphanum || c == '_' || c == '-' || c == '.'

/-- `sanitize_filename` (lines 55-60): replace each unsafe character with
`_`, then strip leading/trailing `_` and `.`. -/
def sanitize_filename (s : String) : String :=
  if s.data.isEmpty then ""
  else ⟨stripCharsL ['_', '.'] (s.data.map (fun c => if safeFileChar c then c else '_'))⟩

/-- `safe_path_join` (lines 63-69): sanitize the filename, join and
normalize, and fail (`none`, the `ValueError("Path traversal detected")`)
unless the result string-starts-with the normalized base. -/
def safe_path_join (base_dir filename : String) : Option String :=
  let fn := sanitize_filename filename
  let full := pyNormpath (pyJoin base_dir fn)
  if pyStartswith (pyNormpath base_dir) full then some full else none

/-- The inline path check shared by `ansible_read_file` (lines 179-182)
and `ansible_write_file` (lines 208-211): `lstrip('/')`, normalize the
join, then a plain string-prefix test against the root. -/
def pathAllowed (root fp : String) : Bool :=
  pyStartswith root (pyNormpath (pyJoin root (lstripSlash fp)))

/-! ## Filesystem model -/

/-- The filesystem: an association list from absolute path to content.
The most recently written binding for a key shadows earlier ones. -/
abbrev Fs := List (String × String)

def lookupFs (fs : Fs) (k : String) : Option String := fs.lookup k

def setFs (fs : Fs) (k v : String) : Fs := (k, v) :: fs

def eraseFs (fs : Fs) (k : String) : Fs := fs.filter (fun p => p.1 ≠ k)

/-- Derived layout constants (lines 27-35), parametrized by the root. -/
def inventoryPath (root : String) : String := pyJoin (pyJoin root "inventory") "hosts.ini"

def playbooksDir (root : String) : String := pyJoin root "playbooks"

/-- `backup_file` (lines 131-138): if the file exists, copy it to
`<path>.<timestamp>.bak` and return that name, else return `""`.
The strftime timestamp is passed in as `ts`. -/
def backup_file (fs : Fs) (filepath ts : String) : Fs × String :=
  match lookupFs fs filepath with
  | some c =>
    (setFs fs (filepath ++ "." ++ ts ++ ".bak") c, filepath ++ "." ++ ts ++ ".bak")
  | none => (fs, "")

/-- Python `confirm.lower() in ["yes", "true", "1"]`. -/
def affirmative (s : String) : Bool := lowerS s == "yes" || lowerS s == "true" || lowerS s == "1"

/-! ## CommandRunner (`run_ansible_command`, lines 72-96) -/

/-- Outcome of the `subprocess.run` call, abstracting the external world:
it either completed, raised `TimeoutExpired`, or raised some other
exception with a message. -/
inductive ProcOutcome where
  | completed (stdout stderr : String) (returncode : Int)
  | timedOut
  | failed (msg : String)
deriving DecidableEq

/-- `run_ansible_command` (lines 72-96).  The Python default timeout is
300 seconds.  Every branch of the `try`/`except` returns a string, so the
embedding is a total function: no exception reaches the caller. -/
def run_ansible_command (timeout : Nat) (outcome : ProcOutcome) : String :=
  match outcome with
  | .completed stdout stderr rc =>
    let parts : List String :=
      (if stdout ≠ "" then ["=== OUTPUT ===\n" ++ stdout] else []) ++
      (if stderr ≠ "" then ["=== STDERR ===\n" ++ stderr] else []) ++
      (if rc ≠ 0 then ["\n=== RETURN CODE: " ++ toString rc ++ " ==="] else [])
    if parts ≠ [] then joinNlS parts else "Command completed with no output."
  | .timedOut => "ERROR: Command timed out after " ++ toString timeout ++ " seconds."
  | .failed msg => "ERROR: " ++ msg

/-! ## OutputSummarizer (`parse_ansible_output`, lines 99-115) -/

def hasRecapMarker (l : String) : Bool := containsSubS "PLAY RECAP" l

def hasFailureMarker (l : String) : Bool :=
  containsSubS "fatal:" (lowerS l) || containsSubS "failed:" (lowerS l)

def hasChangeMarker (l : String) : Bool := containsSubS "changed:" (lowerS l)

def hasNoopMarker (l : String) : Bool := containsSubS "ok=" (lowerS l)

/-- The line-scanning loop of `parse_ansible_output` (lines 104-112),
with the `in_play_recap` flag made explicit. -/
def summaryLines : List String → Bool → List String
  | [], _ => []
  | l :: ls, inRecap =>
    let r := inRecap || hasRecapMarker l
    if r then l :: summaryLines ls r
    else if hasFailureMarker l then l :: summaryLines ls r
    else if hasChangeMarker l && !hasNoopMarker l then l :: summaryLines ls r
    else summaryLines ls r

/-- `parse_ansible_output` (lines 99-115). -/
def parse_ansible_output (raw : String) : String :=
  let s := summaryLines (splitLinesS raw) false
  if s ≠ [] then
    "=== SUMMARY ===\n" ++ joinNlS s ++ "\n\n=== FULL OUTPUT ===\n" ++ raw
  else raw

/-! ## VersionedStore: `ansible_write_file` (lines 200-232) -/

/-- `ansible_write_file` (lines 200-232) over the filesystem model.
Returns the new filesystem and the message string.  `os.makedirs` is a
no-op in the model; the write itself cannot fail here, so the final
`except` branch is unreachable. -/
def ansible_write_file (root : String) (fs : Fs)
    (file_path content create_backup ts : String) : Fs × String :=
  if file_path = "" then (fs, "ERROR: No file path specified.")
  else if content = "" then (fs, "ERROR: No content provided.")
  else
    let fp := lstripSlash file_path
    let full_path := pyNormpath (pyJoin root fp)
    if ¬ pyStartswith root full_path then
      (fs, "ERROR: Access denied - path must be within Ansible directory.")
    else
      let backed :=
        if affirmative create_backup ∧ (lookupFs fs full_path).isSome then
          backup_file fs full_path ts
        else (fs, "")
      let fs2 := setFs backed.1 full_path content
      let msg := "SUCCESS: File written to " ++ fp ++
        (if backed.2 ≠ "" then "\nBackup saved to: " ++ pyBasename backed.2 else "")
      (fs2, msg)

/-! ## `ansible_write_inventory` (lines 253-278) -/

/-- Outcome of the post-write `ansible-inventory --list` validation call:
completed with an exit code, or raised an exception. -/
inductive VOutcome where
  | completed (rc : Int) (stdout stderr : String)
  | raised (msg : String)

/-- `ansible_write_inventory` (lines 253-278).  The validation subprocess
is abstracted as a function `validate` of the filesystem state at the
moment `subprocess.run` is called (after the backup and the write). -/
def ansible_write_inventory (root : String) (fs : Fs) (content ts : String)
    (validate : Fs → VOutcome) : Fs × String :=
  if content = "" then
    (fs, "ERROR: No inventory content provided. Example format:\n\n[group_name]\nhost1 ansible_host=192.168.1.1\nhost2 ansible_host=192.168.1.2")
  else
    let ip := inventoryPath root
    let backed := backup_file fs ip ts
    let fs2 := setFs backed.1 ip content
    match validate fs2 with
    | .completed rc _ stderr =>
      if rc = 0 then
        (fs2, "SUCCESS: Inventory updated at " ++ ip ++
          (if backed.2 ≠ "" then "\nBackup: " ++ pyBasename backed.2 else ""))
      else
        (fs2, "WARNING: Inventory written but validation failed:\n" ++ stderr ++
          "\n\nBackup: " ++ pyBasename backed.2)
    | .raised m => (fs2, "ERROR: Failed to write inventory: " ++ m)

/-! ## InventoryEditor: `ansible_add_host` (lines 281-332) -/

/-- The insertion loop of `ansible_add_host` (lines 314-319): append each
line, and after any line whose stripped form equals the group header also
append the host line. -/
def insertAfterHeader (group_header host_line : String) : List String → List String
  | [] => []
  | l :: ls =>
    if pyStripS l == group_header then
      l :: host_line :: insertAfterHeader group_header host_line ls
    else l :: insertAfterHeader group_header host_line ls

/-- Lines 309-326 of `ansible_add_host`: find-or-create the group and
place the host line. -/
def buildNewLines (lines : List String) (group_header host_line : String) : List String :=
  let new_lines := insertAfterHeader group_header host_line lines
  if lines.any (fun l => pyStripS l == group_header) then new_lines
  else
    let new_lines :=
      if new_lines ≠ [] ∧ pyStripS (new_lines.getLastD "") ≠ "" then new_lines ++ [""]
      else new_lines
    new_lines ++ [group_header, host_line]

/-- The document transformation of `ansible_add_host` (lines 289-291 and
303-330): sanitize the inputs, build the host record line, and insert it
into the grouped line-oriented document. -/
def addHostDoc (content hostname ansible_host group extra_vars : String) : String :=
  let h := sanitize_input hostname
  let a := sanitize_input ansible_host
  let g := if sanitize_input group = "" then "all" else sanitize_input group
  let host_line := h ++ " ansible_host=" ++ a
  let host_line :=
    if extra_vars ≠ "" then host_line ++ " " ++ sanitize_input extra_vars else host_line
  let lines := splitLinesS content
  let group_header := "[" ++ g ++ "]"
  joinNlS (buildNewLines lines group_header host_line)

/-- `ansible_add_host` (lines 281-332) over the filesystem model. -/
def ansible_add_host (root : String) (fs : Fs)
    (hostname ansible_host group extra_vars ts : String) : Fs × String :=
  if hostname = "" then (fs, "ERROR: No hostname specified.")
  else if ansible_host = "" then (fs, "ERROR: No ansible_host (IP address) specified.")
  else
    let h := sanitize_input hostname
    let a := sanitize_input ansible_host
    let g := if sanitize_input group = "" then "all" else sanitize_input group
    let current := (lookupFs fs (inventoryPath root)).getD ""
    if containsSubS h current then
      (fs, "ERROR: Host '" ++ h ++ "' already exists in inventory.")
    else
      let newdoc := addHostDoc current hostname ansible_host group extra_vars
      let backed := backup_file fs (inventoryPath root) ts
      (setFs backed.1 (inventoryPath root) newdoc,
       "SUCCESS: Added host '" ++ h ++ "' (" ++ a ++ ") to group '" ++ g ++ "'")

/-! ## InventoryEditor: `ansible_remove_host` (lines 335-367) -/

/-- The per-line match of `ansible_remove_host` (line 355):
`line.strip().startswith(hostname + " ") or line.strip() == hostname`. -/
def removeMatch (hostname : String) (l : String) : Bool :=
  pyStartswith (hostname ++ " ") (pyStripS l) || pyStripS l == hostname

/-- `ansible_remove_host` (lines 335-367) over the filesystem model. -/
def ansible_remove_host (root : String) (fs : Fs)
    (hostname confirm ts : String) : Fs × String :=
  if hostname = "" then (fs, "ERROR: No hostname specified.")
  else if ¬ affirmative confirm then
    (fs, "WARNING: This will remove '" ++ hostname ++
      "' from inventory. Set confirm=yes to proceed.")
  else
    let h := sanitize_input hostname
    match lookupFs fs (inventoryPath root) with
    | none => (fs, "ERROR: Inventory file not found.")
    | some content =>
      let lines := pyReadlinesS content
      let new_lines := lines.filter (fun l => ¬ removeMatch h l)
      if ¬ lines.any (removeMatch h) then
        (fs, "ERROR: Host '" ++ h ++ "' not found in inventory.")
      else
        let backed := backup_file fs (inventoryPath root) ts
        (setFs backed.1 (inventoryPath root) (concatS new_lines),
         "SUCCESS: Removed host '" ++ h ++ "' from inventory.")

/-! ## `ansible_delete_playbook` (lines 714-739) -/

/-- Is `k` a path directly inside directory `dir` (no further `/`)? -/
def isDirectChild (dir k : String) : Bool :=
  List.isPrefixOf (dir.data ++ ['/']) k.data ∧
    ¬ (k.data.drop (dir.data.length + 1)).contains '/'

/-- `get_available_playbooks` (lines 118-128) over the filesystem model:
entries of the playbooks directory with a YAML extension, plus the
optional root `playbook.yml`. -/
def get_available_playbooks (root : String) (fs : Fs) : List String :=
  let pb := playbooksDir root
  let names := ((fs.map Prod.fst).filter
    (fun k => isDirectChild pb k ∧ endsYamlExt k)).map pyBasename
  names ++
    (if (lookupFs fs (pyJoin root "playbook.yml")).isSome then ["playbook.yml (root)"] else [])

/-- `ansible_delete_playbook` (lines 714-739) over the filesystem model. -/
def ansible_delete_playbook (root : String) (fs : Fs)
    (playbook_name confirm ts : String) : Fs × String :=
  if playbook_name = "" then
    let available := get_available_playbooks root fs
    if available ≠ [] then
      (fs, "ERROR: No playbook specified. Available:\n- " ++ joinWithS "\n- " available)
    else (fs, "ERROR: No playbook specified.")
  else if ¬ affirmative confirm then
    (fs, "WARNING: This will delete '" ++ playbook_name ++ "'. Set confirm=yes to proceed.")
  else
    let name := sanitize_input playbook_name
    let name := if ¬ endsYamlExt name then name ++ ".yml" else name
    let path := pyJoin (playbooksDir root) name
    match lookupFs fs path with
    | none => (fs, "ERROR: Playbook not found: " ++ name)
    | some _ =>
      let backed := backup_file fs path ts
      (eraseFs backed.1 path,
       "SUCCESS: Playbook '" ++ name ++ "' deleted (backup created).")

/-! ## Spec-side definitions

These follow the wording of the specification (not the source) and are
used to compare the code's behavior against the claims. -/

/-- Spec wording: the resolved path "is equal to or a descendant of" the
root. -/
@[reducible]
def specDescendantOrSelf (root p : String) : Prop :=
  p = root ∨ pyStartswith (root ++ "/") p = true

/-- Claim wording for `addHost`: insert the record immediately after the
first line exactly equal to the group header. -/
def specInsertAfterFirst (header record : String) : List String → List String
  | [] => []
  | l :: ls =>
    if l = header then l :: record :: ls else l :: specInsertAfterFirst header record ls

/-- `addHost` as claim C3 literally states it: insertion after the first
line exactly equal to the header; otherwise a blank separator (for a
non-empty document whose last line is non-blank), the header and the
record are appended. -/
def specAddHostClaimed (content record header : String) : String :=
  let lines := splitLinesS content
  if header ∈ lines then joinNlS (specInsertAfterFirst header record lines)
  else
    joinNlS (lines ++
      (if content ≠ "" ∧ pyStripS (lines.getLastD "") ≠ "" then [""] else []) ++
      [header, record])

/-- Amended `addHost` claim: the record is inserted after every line
whose whitespace-stripped form equals the header; the append branch is
unchanged. -/
def specAddHostAmended (content record header : String) : String :=
  let lines := splitLinesS content
  if lines.any (fun l => pyStripS l == header) then
    joinNlS ((lines.map (fun l => if pyStripS l == header then [l, record] else [l])).flatten)
  else
    joinNlS (lines ++
      (if content ≠ "" ∧ pyStripS (lines.getLastD "") ≠ "" then [""] else []) ++
      [header, record])

/-- Spec wording for the summarizer: a pre-recap line is kept when it
contains a failure marker, or a change marker without the no-op marker. -/
def specActionable (l : String) : Bool :=
  hasFailureMarker l || (hasChangeMarker l && !hasNoopMarker l)

/-- Spec wording: every line from the first recap-marker line onward, and
before that point the actionable lines. -/
def specKeptLines (raw : String) : List String :=
  let lines := splitLinesS raw
  (lines.takeWhile (fun l => !hasRecapMarker l)).filter specActionable ++
    lines.dropWhile (fun l => !hasRecapMarker l)

/-- The summarizer as the spec states it: kept lines under a summary
heading followed by the raw output under a full-output heading, or the
raw output unchanged when nothing was kept. -/
def specSummarize (raw : String) : String :=
  let kept := specKeptLines raw
  if kept = [] then raw
  else "=== SUMMARY ===\n" ++ joinNlS kept ++ "\n\n=== FULL OUTPUT ===\n" ++ raw

/-- Claim wording for `removeHost` line matching: the line equals the
host id, or starts with the host id followed by a space. -/
def specRemoveMatch (hostname l : String) : Prop :=
  l = hostname ∨ pyStartswith (hostname ++ " ") l = true

/-! ## Supporting lemmas -/

theorem data_append (s t : String) : (s ++ t).data = s.data ++ t.data := rfl

theorem bakName_ne_self (s ts : String) : s ++ "." ++ ts ++ ".bak" ≠ s := by
  intro h
  have h2 := congrArg (fun x : String => x.data.length) h
  simp only [data_append, List.length_append] at h2
  have e1 : ".".data.length = 1 := rfl
  have e2 : ".bak".data.length = 4 := rfl
  rw [e1, e2] at h2
  omega

theorem bakName_ne_empty (s ts : String) : s ++ "." ++ ts ++ ".bak" ≠ "" := by
  intro h
  have h2 := congrArg (fun x : String => x.data.length) h
  simp only [data_append, List.length_append] at h2
  have e1 : ".".data.length = 1 := rfl
  have e2 : ".bak".data.length = 4 := rfl
  have e3 : "".data.length = 0 := rfl
  rw [e1, e2, e3] at h2
  omega

theorem lookupFs_set_same (fs : Fs) (k v : String) :
    lookupFs (setFs fs k v) k = some v := by
  simp [lookupFs, setFs, List.lookup]

theorem lookupFs_set_ne (fs : Fs) (k k' v : String) (h : k' ≠ k) :
    lookupFs (setFs fs k v) k' = lookupFs fs k' := by
  have hb : (k' == k) = false := beq_eq_false_iff_ne.mpr h
  simp [lookupFs, setFs, List.lookup, hb]

theorem mem_of_mem_stripWhileL (p : Char → Bool) (l : List Char) (a : Char)
    (h : a ∈ stripWhileL p l) : a ∈ l := by
  unfold stripWhileL at h
  rw [List.mem_reverse] at h
  have h1 := (List.dropWhile_sublist p).subset h
  rw [List.mem_reverse] at h1
  exact (List.dropWhile_sublist p).subset h1

theorem foldl_removeCharL (ds : List Char) (l : List Char) :
    ds.foldl (fun acc c => removeCharL c acc) l = l.filter (fun x => !(ds.contains x)) := by
  induction ds generalizing l with
  | nil =>
    simp [List.contains, List.filter_true]
  | cons d ds ih =>
    rw [List.foldl_cons, ih, removeCharL, List.filter_filter]
    congr 1
    funext x
    rw [Bool.eq_iff_iff]
    simp [List.contains, List.elem_iff, List.elem_cons, bne]
    tauto

theorem sanitize_input_eq_filter (s : String) :
    sanitize_input s = pyStripS ⟨s.data.filter (fun c => !(dangerousChars.contains c))⟩ := by
  by_cases hs : s.data.isEmpty
  · rw [List.isEmpty_iff] at hs
    simp [sanitize_input, hs, pyStripS, pyStripL, stripWhileL]
  · simp only [sanitize_input, hs, if_false, Bool.false_eq_true]
    rw [foldl_removeCharL]

/-! ## Claim theorems -/

/-- C1: the claim says every `..`-containing relative path whose
normalized join escapes the managed root is rejected with a path
traversal error before any filesystem access.  The code's check is only
a string-prefix test (`full_path.startswith(ANSIBLE_DIR)`), so with root
`/root/ansible` the input `../ansible2/pwn` normalizes to
`/root/ansible2/pwn` — neither the root nor a descendant of it — yet the
check passes and `ansible_write_file` writes the file outside the root. -/
theorem c1_prefix_check_escape :
    pathAllowed "/root/ansible" "../ansible2/pwn" = true ∧
    ¬ specDescendantOrSelf "/root/ansible"
        (pyNormpath (pyJoin "/root/ansible" (lstripSlash "../ansible2/pwn"))) ∧
    ansible_write_file "/root/ansible" [] "../ansible2/pwn" "c2" "no" "20250101_000000" =
      ([("/root/ansible2/pwn", "c2")], "SUCCESS: File written to ../ansible2/pwn") := by
  decide

/-- C5: `run_ansible_command` is a total function of the process outcome
(every branch of the `try`/`except` returns a string, so no exception
reaches the caller).  A timeout yields the timed-out message — which
carries no exit code — with the default 300-second timeout interpolated,
and any launch failure is rendered as an `ERROR:`-prefixed result value. -/
theorem c5_run_command_total :
    (∀ t : Nat, run_ansible_command t .timedOut =
        "ERROR: Command timed out after " ++ toString t ++ " seconds.") ∧
    containsSubS "timed out" (run_ansible_command 300 .timedOut) = true ∧
    containsSubS "RETURN CODE" (run_ansible_command 300 .timedOut) = false ∧
    (∀ msg : String, run_ansible_command 300 (.failed msg) = "ERROR: " ++ msg) := by
  refine ⟨fun t => rfl, by decide, by decide, fun msg => rfl⟩

/-- C3 counterexample: on the document `"[core]\n[core]"` (which does not
contain the host id) the code inserts the record after *both* matching
header lines, while the claim prescribes insertion after the first exact
match only. -/
theorem c3_counterexample :
    addHostDoc "[core]\n[core]" "sw1" "10.0.0.1" "core" "" ≠
      specAddHostClaimed "[core]\n[core]" "sw1 ansible_host=10.0.0.1" "[core]" := by
  decide

/-- C7 counterexample: in the document `" sw1\nother x"` no line equals
`"sw1"` or starts with `"sw1 "` (the first line starts with a space), so
by the claim `removeHost` should fail with NotFound and leave the
document unchanged; the code strips each line before matching, removes
the first line and reports success. -/
theorem c7_counterexample :
    (pyReadlinesS " sw1\nother x").all
        (fun l => !(l == "sw1" || pyStartswith "sw1 " l)) = true ∧
    (ansible_remove_host "/r" [(inventoryPath "/r", " sw1\nother x")] "sw1" "yes" "ts").2 =
        "SUCCESS: Removed host 'sw1' from inventory." ∧
    lookupFs (ansible_remove_host "/r" [(inventoryPath "/r", " sw1\nother x")]
        "sw1" "yes" "ts").1 (inventoryPath "/r") = some "other x" := by
  decide

/-- C9: `sanitize_input` returns its input with every occurrence of the
shell metacharacters `; & | $ `+backtick+` ( ) { } < > \` removed and
surrounding whitespace stripped; consequently no metacharacter survives,
and in particular `sanitize_input "rm -rf / ; echo hi"` contains no
semicolon. -/
theorem c9_sanitize_argument :
    (∀ s : String, sanitize_input s =
        pyStripS ⟨s.data.filter (fun c => !(dangerousChars.contains c))⟩) ∧
    (∀ s : String, ∀ c : Char, c ∈ dangerousChars → c ∉ (sanitize_input s).data) ∧
    ';' ∉ (sanitize_input "rm -rf / ; echo hi").data := by
  refine ⟨sanitize_input_eq_filter, fun s c hcd hmem => ?_, by decide⟩
  rw [sanitize_input_eq_filter] at hmem
  have hmem2 := mem_of_mem_stripWhileL pyIsSpace _ c hmem
  have hfil := (List.mem_filter.mp hmem2).2
  rw [Bool.not_eq_eq_eq_not] at hfil
  simp only [List.contains] at hfil
  rw [List.elem_eq_true_of_mem hcd] at hfil
  exact absurd hfil (by decide)

/-- C9 witness: the hypotheses of the second conjunct discharged at a
concrete input. -/
theorem c9_sanitize_argument_witness :
    ';' ∈ dangerousChars ∧ ';' ∉ (sanitize_input "a;b").data :=
  ⟨by decide, c9_sanitize_argument.2.1 "a;b" ';' (by decide)⟩

/-- C6: when the sanitized hostname occurs anywhere in the current
inventory text, `ansible_add_host` returns the duplicate-host error and
the filesystem is returned unchanged: no backup and no write happen. -/
theorem c6_duplicate_host (root : String) (fs : Fs) (h a g e ts doc : String)
    (hh : h ≠ "") (ha : a ≠ "")
    (hdoc : lookupFs fs (inventoryPath root) = some doc)
    (hdup : containsSubS (sanitize_input h) doc = true) :
    ansible_add_host root fs h a g e ts =
      (fs, "ERROR: Host '" ++ sanitize_input h ++ "' already exists in inventory.") := by
  simp [ansible_add_host, hh, ha, hdoc, hdup]

/-- C6 witness: concrete duplicate (`"sw1"` occurs inside `"x sw1 y"`). -/
theorem c6_duplicate_host_witness :
    ansible_add_host "/r" [(inventoryPath "/r", "x sw1 y")] "sw1" "10.0.0.1" "core" "" "ts" =
      ([(inventoryPath "/r", "x sw1 y")],
        "ERROR: Host '" ++ sanitize_input "sw1" ++ "' already exists in inventory.") :=
  c6_duplicate_host "/r" [(inventoryPath "/r", "x sw1 y")] "sw1" "10.0.0.1" "core" "" "ts"
    "x sw1 y" (by decide) (by decide) (by decide) (by decide)

/-- C8: without an affirmative confirmation (`yes`/`true`/`1`,
case-insensitive), both destructive tools return a warning describing the
would-be action and leave the filesystem untouched. -/
theorem c8_confirmation_gate (root : String) (fs : Fs) (hostname pname confirm ts : String)
    (hh : hostname ≠ "") (hp : pname ≠ "") (hc : affirmative confirm = false) :
    ansible_remove_host root fs hostname confirm ts =
      (fs, "WARNING: This will remove '" ++ hostname ++
        "' from inventory. Set confirm=yes to proceed.") ∧
    ansible_delete_playbook root fs pname confirm ts =
      (fs, "WARNING: This will delete '" ++ pname ++ "'. Set confirm=yes to proceed.") := by
  constructor
  · simp [ansible_remove_host, hh, hc]
  · simp [ansible_delete_playbook, hp, hc]

/-- C8 witness: concrete non-affirmative confirmation `"no"`. -/
theorem c8_confirmation_gate_witness :
    ansible_remove_host "/r" [] "h1" "no" "ts" =
      ([], "WARNING: This will remove '" ++ "h1" ++
        "' from inventory. Set confirm=yes to proceed.") ∧
    ansible_delete_playbook "/r" [] "p1" "no" "ts" =
      ([], "WARNING: This will delete '" ++ "p1" ++ "'. Set confirm=yes to proceed.") :=
  c8_confirmation_gate "/r" [] "h1" "p1" "no" "ts" (by decide) (by decide) (by decide)

/-- C2: with backups enabled, overwriting an existing asset holding `c`
with `c2` stores `c` under the backup name `<originalName>.<ts>.bak`
(where `ts` stands for the `%Y%m%d_%H%M%S` timestamp) and the asset then
holds `c2` verbatim, with the backup's basename reported; writing to a
path that does not exist performs no backup and only writes the asset. -/
theorem c2_write_backup_roundtrip (root : String) (fs : Fs) (fp c2 ts full : String)
    (hfp : fp ≠ "") (hc : c2 ≠ "")
    (hfull : full = pyNormpath (pyJoin root (lstripSlash fp)))
    (hok : pyStartswith root full = true) :
    (∀ c, lookupFs fs full = some c →
       lookupFs (ansible_write_file root fs fp c2 "yes" ts).1 full = some c2 ∧
       lookupFs (ansible_write_file root fs fp c2 "yes" ts).1
           (full ++ "." ++ ts ++ ".bak") = some c ∧
       (ansible_write_file root fs fp c2 "yes" ts).2 =
         "SUCCESS: File written to " ++ lstripSlash fp ++ "\nBackup saved to: " ++
           pyBasename (full ++ "." ++ ts ++ ".bak")) ∧
    (lookupFs fs full = none →
       ansible_write_file root fs fp c2 "yes" ts =
         (setFs fs full c2, "SUCCESS: File written to " ++ lstripSlash fp)) := by
  have haff : affirmative "yes" = true := by decide
  constructor
  · intro c hcl
    simp only [ansible_write_file, hfp, hc, ← hfull, hok, haff, hcl, backup_file,
      Option.isSome_some, and_true, if_true, if_neg, ite_true, not_true_eq_false,
      ite_false, if_false]
    refine ⟨?_, ?_, ?_⟩
    · simp [lookupFs_set_same]
    · rw [lookupFs_set_ne _ _ _ _ (bakName_ne_self full ts)]
      simp [lookupFs_set_same]
    · have hne : full ++ ("." ++ (ts ++ ".bak")) ≠ "" := by
        simpa [String.append_assoc] using bakName_ne_empty full ts
      simp [hne, String.append_assoc]
  · intro hcl
    simp only [ansible_write_file, hfp, hc, ← hfull, hok, haff, hcl, backup_file,
      Option.isSome_none, and_false, if_false, not_true_eq_false, ite_false]
    simp

/-- C2 witness: overwrite of `/r/a` holding `"c"` with `"d"`, plus the
no-previous-asset case at `/r/b`. -/
theorem c2_write_backup_roundtrip_witness :
    (lookupFs (ansible_write_file "/r" [("/r/a", "c")] "a" "d" "yes" "20250101_000000").1
        "/r/a" = some "d" ∧
     lookupFs (ansible_write_file "/r" [("/r/a", "c")] "a" "d" "yes" "20250101_000000").1
        ("/r/a" ++ "." ++ "20250101_000000" ++ ".bak") = some "c" ∧
     (ansible_write_file "/r" [("/r/a", "c")] "a" "d" "yes" "20250101_000000").2 =
       "SUCCESS: File written to " ++ lstripSlash "a" ++ "\nBackup saved to: " ++
         pyBasename ("/r/a" ++ "." ++ "20250101_000000" ++ ".bak")) ∧
    ansible_write_file "/r" [("/r/a", "c")] "b" "d" "yes" "20250101_000000" =
      (setFs [("/r/a", "c")] "/r/b" "d", "SUCCESS: File written to " ++ lstripSlash "b") := by
  have h1 := c2_write_backup_roundtrip "/r" [("/r/a", "c")] "a" "d" "20250101_000000" "/r/a"
    (by decide) (by decide) (by decide) (by decide)
  have h2 := c2_write_backup_roundtrip "/r" [("/r/a", "c")] "b" "d" "20250101_000000" "/r/b"
    (by decide) (by decide) (by decide) (by decide)
  exact ⟨h1.1 "c" (by decide), h2.2 (by decide)⟩

/-- C10: `ansible_write_inventory` with non-empty content backs up the
old inventory, writes the new content, and only then invokes validation
(the `validate` callback observes the already-written content); when
validation exits non-zero the new content stays on disk (no rollback) and
a `WARNING:`-prefixed message is returned. -/
theorem c10_validation_after_write (root : String) (fs : Fs)
    (content old ts so se : String) (rc : Int) (validate : Fs → VOutcome)
    (hc : content ≠ "") (hold : lookupFs fs (inventoryPath root) = some old)
    (hv : ∀ s : Fs, lookupFs s (inventoryPath root) = some content →
        validate s = .completed rc so se)
    (hrc : rc ≠ 0) :
    (ansible_write_inventory root fs content ts validate).1 =
      setFs (setFs fs (inventoryPath root ++ "." ++ ts ++ ".bak") old)
        (inventoryPath root) content ∧
    lookupFs (ansible_write_inventory root fs content ts validate).1
        (inventoryPath root) = some content ∧
    lookupFs (ansible_write_inventory root fs content ts validate).1
        (inventoryPath root ++ "." ++ ts ++ ".bak") = some old ∧
    (ansible_write_inventory root fs content ts validate).2 =
      "WARNING: Inventory written but validation failed:\n" ++ se ++ "\n\nBackup: " ++
        pyBasename (inventoryPath root ++ "." ++ ts ++ ".bak") := by
  have hval := hv
    (setFs (setFs fs (inventoryPath root ++ "." ++ ts ++ ".bak") old)
      (inventoryPath root) content)
    (lookupFs_set_same _ _ _)
  simp only [ansible_write_inventory, hc, backup_file, hold, hval, hrc, if_false,
    ite_false, if_neg, true_and, and_true]
  refine ⟨?_, ?_⟩
  · exact lookupFs_set_same _ _ _
  · rw [lookupFs_set_ne _ _ _ _ (bakName_ne_self (inventoryPath root) ts)]
    exact lookupFs_set_same _ _ _

/-- C10 witness: a concrete validator that fails (exit code 1) exactly
when it sees the new content. -/
theorem c10_validation_after_write_witness :
    lookupFs (ansible_write_inventory "/r" [(inventoryPath "/r", "old")] "new" "ts"
        (fun _ => .completed 1 "" "err")).1 (inventoryPath "/r") = some "new" ∧
    lookupFs (ansible_write_inventory "/r" [(inventoryPath "/r", "old")] "new" "ts"
        (fun _ => .completed 1 "" "err")).1
        (inventoryPath "/r" ++ "." ++ "ts" ++ ".bak") = some "old" ∧
    (ansible_write_inventory "/r" [(inventoryPath "/r", "old")] "new" "ts"
        (fun _ => .completed 1 "" "err")).2 =
      "WARNING: Inventory written but validation failed:\n" ++ "err" ++ "\n\nBackup: " ++
        pyBasename (inventoryPath "/r" ++ "." ++ "ts" ++ ".bak") := by
  have h := c10_validation_after_write "/r" [(inventoryPath "/r", "old")] "new" "old"
    "ts" "" "err" 1 (fun _ => .completed 1 "" "err")
    (by decide) (by decide) (fun _ _ => rfl) (by decide)
  exact ⟨h.2.1, h.2.2.1, h.2.2.2⟩

theorem summaryLines_true (ls : List String) : summaryLines ls true = ls := by
  induction ls with
  | nil => rfl
  | cons l ls ih => simp [summaryLines, ih]

theorem summaryLines_false (ls : List String) :
    summaryLines ls false =
      (ls.takeWhile (fun l => !hasRecapMarker l)).filter specActionable ++
        ls.dropWhile (fun l => !hasRecapMarker l) := by
  induction ls with
  | nil => rfl
  | cons l ls ih =>
    cases hr : hasRecapMarker l
    · cases hf : hasFailureMarker l <;>
        cases hcg : hasChangeMarker l && !hasNoopMarker l <;>
        simp [summaryLines, List.takeWhile_cons, List.dropWhile_cons, List.filter_cons,
          specActionable, hr, hf, hcg, ih]
    · simp [summaryLines, List.takeWhile_cons, List.dropWhile_cons, hr, summaryLines_true]

theorem summaryLines_nil_of_no_markers (ls : List String)
    (h : ∀ l ∈ ls, hasRecapMarker l = false ∧ hasFailureMarker l = false ∧
      hasChangeMarker l = false) :
    summaryLines ls false = [] := by
  induction ls with
  | nil => rfl
  | cons l ls ih =>
    obtain ⟨h1, h2, h3⟩ := h l (by simp)
    simp [summaryLines, h1, h2, h3, ih (fun x hx => h x (by simp [hx]))]

/-- C4: `parse_ansible_output` equals the summarizer as the spec words
it — every line from the first recap-marker line onward is kept, earlier
lines are kept when they hold a failure marker or a change marker without
the no-op marker, and the result is either the two-part
summary/full-output document or, when nothing was kept, the raw text
unchanged.  Consequently an input without recap, failure or change
markers is returned as-is. -/
theorem c4_summarize_characterization (raw : String) :
    parse_ansible_output raw = specSummarize raw ∧
    ((∀ l ∈ splitLinesS raw, hasRecapMarker l = false ∧ hasFailureMarker l = false ∧
        hasChangeMarker l = false) → parse_ansible_output raw = raw) := by
  constructor
  · unfold parse_ansible_output specSummarize specKeptLines
    rw [summaryLines_false]
    by_cases hk : ((splitLinesS raw).takeWhile (fun l => !hasRecapMarker l)).filter
        specActionable ++ (splitLinesS raw).dropWhile (fun l => !hasRecapMarker l) = [] <;>
      simp [hk]
  · intro h
    unfold parse_ansible_output
    rw [summaryLines_nil_of_no_markers _ h]
    simp

/-- C4 witness: a marker-free input is returned unchanged. -/
theorem c4_summarize_witness : parse_ansible_output "hello\nworld" = "hello\nworld" :=
  (c4_summarize_characterization "hello\nworld").2 (by decide)

theorem insertAfterHeader_eq_flatten (hd rec : String) (ls : List String) :
    insertAfterHeader hd rec ls =
      (ls.map (fun l => if pyStripS l == hd then [l, rec] else [l])).flatten := by
  induction ls with
  | nil => rfl
  | cons l ls ih =>
    by_cases hm : pyStripS l = hd <;> simp [insertAfterHeader, hm, ih]

theorem insertAfterHeader_of_no_match (hd rec : String) (ls : List String)
    (h : ls.any (fun l => pyStripS l == hd) = false) :
    insertAfterHeader hd rec ls = ls := by
  induction ls with
  | nil => rfl
  | cons l ls ih =>
    rw [List.any_cons, Bool.or_eq_false_iff] at h
    simp [insertAfterHeader, h.1, ih h.2]

theorem splitOnCharL_ne_nil (sep : Char) (l : List Char) : splitOnCharL sep l ≠ [] := by
  induction l with
  | nil => simp [splitOnCharL]
  | cons c cs ih =>
    cases hc : c == sep
    · cases hsp : splitOnCharL sep cs with
      | nil => exact absurd hsp ih
      | cons h t => simp [splitOnCharL, hc, hsp]
    · simp [splitOnCharL, hc]

theorem splitLinesS_ne_nil (s : String) : splitLinesS s ≠ [] := by
  unfold splitLinesS
  intro h
  exact splitOnCharL_ne_nil '\n' s.data (List.map_eq_nil_iff.mp h)

/-- C3 (amended): for a document that does not contain the host id, the
code inserts the record after *every* line whose whitespace-stripped form
equals the group header (not only after a first exactly-equal line);
otherwise it appends a blank separator (when the document is non-empty
with a non-blank last line), the header and the record, preserving all
other lines in order.  The claim's empty-document scenario holds
verbatim. -/
theorem c3_add_host_amended :
    (∀ content hostname ansible_host group extra_vars : String,
      containsSubS (sanitize_input hostname) content = false →
      addHostDoc content hostname ansible_host group extra_vars =
        specAddHostAmended content
          (if extra_vars ≠ "" then
            sanitize_input hostname ++ " ansible_host=" ++ sanitize_input ansible_host ++
              " " ++ sanitize_input extra_vars
          else sanitize_input hostname ++ " ansible_host=" ++ sanitize_input ansible_host)
          ("[" ++ (if sanitize_input group = "" then "all" else sanitize_input group) ++ "]")) ∧
    addHostDoc "" "sw1" "10.0.0.1" "core" "" = "\n[core]\nsw1 ansible_host=10.0.0.1" := by
  refine ⟨?_, by decide⟩
  intro content hostname ansible_host group extra_vars _
  by_cases hany : (splitLinesS content).any (fun l => pyStripS l ==
      "[" ++ (if sanitize_input group = "" then "all" else sanitize_input group) ++ "]") = true
  · simp only [addHostDoc, specAddHostAmended, buildNewLines, hany, if_true]
    rw [insertAfterHeader_eq_flatten]
  · rw [Bool.not_eq_true] at hany
    simp only [addHostDoc, specAddHostAmended, buildNewLines, hany, Bool.false_eq_true,
      if_false]
    rw [insertAfterHeader_of_no_match _ _ _ hany]
    by_cases hcont : content = ""
    · subst hcont
      rw [if_neg (by decide)]
      simp
    · have hl1 : splitLinesS content ≠ [] := splitLinesS_ne_nil content
      by_cases hp : pyStripS ((splitLinesS content).getLast?.getD "") = ""
      · simp [hp, hcont]
      · simp [hp, hl1, hcont, List.append_assoc]

/-- C3 witness: the amended insertion law applied at a concrete document
with one strip-matching header line. -/
theorem c3_add_host_amended_witness :
    addHostDoc "a\n[core]" "sw1" "10.0.0.1" "core" "" =
      specAddHostAmended "a\n[core]"
        (if ("" : String) ≠ "" then
          sanitize_input "sw1" ++ " ansible_host=" ++ sanitize_input "10.0.0.1" ++
            " " ++ sanitize_input ""
        else sanitize_input "sw1" ++ " ansible_host=" ++ sanitize_input "10.0.0.1")
        ("[" ++ (if sanitize_input "core" = "" then "all" else sanitize_input "core") ++ "]") :=
  c3_add_host_amended.1 "a\n[core]" "sw1" "10.0.0.1" "core" "" (by decide)

/-- C7 (amended): `ansible_remove_host` (with confirmation) deletes every
line whose *whitespace-stripped* form equals the sanitized host id or
starts with it followed by a space (`removeMatch`), keeping all other
lines verbatim and in order; when no line matches it fails with the
not-found error and the filesystem is unchanged. -/
theorem c7_remove_host_amended (root : String) (fs : Fs) (h confirm ts doc : String)
    (hh : h ≠ "") (hc : affirmative confirm = true)
    (hdoc : lookupFs fs (inventoryPath root) = some doc) :
    ((pyReadlinesS doc).any (removeMatch (sanitize_input h)) = false →
      ansible_remove_host root fs h confirm ts =
        (fs, "ERROR: Host '" ++ sanitize_input h ++ "' not found in inventory.")) ∧
    ((pyReadlinesS doc).any (removeMatch (sanitize_input h)) = true →
      ansible_remove_host root fs h confirm ts =
        (setFs (backup_file fs (inventoryPath root) ts).1 (inventoryPath root)
          (concatS ((pyReadlinesS doc).filter (fun l => ¬ removeMatch (sanitize_input h) l))),
         "SUCCESS: Removed host '" ++ sanitize_input h ++ "' from inventory.")) := by
  constructor <;> intro hm <;> simp [ansible_remove_host, hh, hc, hdoc, hm]

/-- C7 witness: removal from a concrete document with one matching line. -/
theorem c7_remove_host_amended_witness :
    ansible_remove_host "/r" [(inventoryPath "/r", "sw1 x\nkeep")] "sw1" "yes" "ts" =
      (setFs (backup_file [(inventoryPath "/r", "sw1 x\nkeep")] (inventoryPath "/r") "ts").1
        (inventoryPath "/r")
        (concatS ((pyReadlinesS "sw1 x\nkeep").filter
          (fun l => ¬ removeMatch (sanitize_input "sw1") l))),
       "SUCCESS: Removed host '" ++ sanitize_input "sw1" ++ "' from inventory.") :=
  (c7_remove_host_amended "/r" [(inventoryPath "/r", "sw1 x\nkeep")] "sw1" "yes" "ts"
    "sw1 x\nkeep" (by decide) (by decide) (by decide)).2 (by decide)

end AnsibleNetworkMCP
